import Mathlib

/-!
Shallow embedding of `src/traits.rs` of `ckb-sdk-rust`: the `Wallet` and
`TransactionDependencyProvider` trait contracts, their two error enums, and
the `EmptyTxDepProvider` implementation.

Modelling conventions:
  * byte sequences (`bytes::Bytes`, `&[u8]`) are `List Nat`, one entry per byte;
  * `Box<dyn std::error::Error>` is modelled by its displayable description;
  * the ledger value types (`H256`, `OutPoint`, `Transaction`, `CellOutput`,
    `Header`, `TransactionView`) are opaque to this module and are embedded as
    single-field wrappers with decidable equality, matching the spec's "opaque
    value types with equality";
  * a Rust trait becomes a structure of functions; a `&mut self` method becomes
    explicit state passing `S → args → result × S`; a `&self` method takes the
    receiver and returns no new receiver;
  * `Result<T, E>` becomes `Except E T`.
-/

namespace CkbSdk

/-- Byte sequence (`bytes::Bytes` / `&[u8]` in the source), one `Nat` per byte. -/
abbrev Bytes := List Nat

/-- Opaque boxed error (`Box<dyn std::error::Error>`), modelled by its
displayable description. -/
abbrev OpaqueError := String

/-- Opaque 256-bit hash (`ckb_types::H256`). -/
structure H256 where
  bytes : List Nat
  deriving DecidableEq, Repr

/-- Opaque out-point (`ckb_types::packed::OutPoint`): a transaction hash plus
an output index. -/
structure OutPoint where
  tx_hash : H256
  index : Nat
  deriving DecidableEq, Repr

/-- Opaque raw transaction (`ckb_types::packed::Transaction`). -/
structure Transaction where
  raw : List Nat
  deriving DecidableEq, Repr

/-- Opaque cell output (`ckb_types::packed::CellOutput`). -/
structure CellOutput where
  raw : List Nat
  deriving DecidableEq, Repr

/-- Opaque block header (`ckb_types::packed::Header`). -/
structure Header where
  raw : List Nat
  deriving DecidableEq, Repr

/-- Opaque transaction view (`ckb_types::core::TransactionView`). -/
structure TransactionView where
  raw : List Nat
  deriving DecidableEq, Repr

/-- `TxDepProviderError` from `src/traits.rs`: transaction dependency provider
errors, either `NotFound` or an opaque `Other`. -/
inductive TxDepProviderError where
  | NotFound
  | Other (inner : OpaqueError)
  deriving DecidableEq, Repr

/-- `WalletError` from `src/traits.rs`: wallet errors. `TxDep` wraps a
`TxDepProviderError` (the `#[from]` attribute in the source derives the
conversion `WalletError.fromTxDepProviderError` below). -/
inductive WalletError where
  | IdNotFound
  | InvalidMessage (reason : String)
  | TxDep (inner : TxDepProviderError)
  | Other (inner : OpaqueError)
  deriving DecidableEq, Repr

/-- The conversion `From<TxDepProviderError> for WalletError` derived by
thiserror from `#[from]` on the `TxDep` variant: it wraps the dependency error
in `WalletError.TxDep`. -/
def WalletError.fromTxDepProviderError (e : TxDepProviderError) : WalletError :=
  WalletError.TxDep e

/-- Recovering the wrapped dependency error from a `WalletError` (a Rust caller
does this by pattern matching on the `TxDep` variant). -/
def WalletError.txDepSource : WalletError → Option TxDepProviderError
  | .TxDep e => some e
  | _ => none

/-- The `TransactionDependencyProvider` trait from `src/traits.rs`: four
lookups, each taking `&mut self` in the source, embedded as explicit state
passing over the implementing type `S`. -/
structure TransactionDependencyProvider (S : Type) where
  get_tx : S → H256 → Except TxDepProviderError Transaction × S
  get_output : S → OutPoint → Except TxDepProviderError CellOutput × S
  get_output_data : S → OutPoint → Except TxDepProviderError Bytes × S
  get_header : S → H256 → Except TxDepProviderError Header × S

/-- `EmptyTxDepProvider` from `src/traits.rs`: a fieldless struct. -/
structure EmptyTxDepProvider where
  deriving DecidableEq, Repr

/-- The `impl TransactionDependencyProvider for EmptyTxDepProvider` from
`src/traits.rs`: each of the four lookups returns
`Err(TxDepProviderError::NotFound)` and does not touch `self`. -/
def EmptyTxDepProvider.impl : TransactionDependencyProvider EmptyTxDepProvider where
  get_tx := fun s _ => (Except.error TxDepProviderError.NotFound, s)
  get_output := fun s _ => (Except.error TxDepProviderError.NotFound, s)
  get_output_data := fun s _ => (Except.error TxDepProviderError.NotFound, s)
  get_header := fun s _ => (Except.error TxDepProviderError.NotFound, s)

/-- The `Wallet` trait from `src/traits.rs`, over the implementing type `W`.
`match_id` and `verify` take `&self`; `sign` takes `&self` and an exclusive
mutable transaction dependency provider (a trait object, hence the
quantification over the provider's implementing type `S`), embedded as state
passing on `S` only: no method produces a new `W`, mirroring the shared
borrow of the wallet. -/
structure Wallet (W : Type) : Type 1 where
  match_id : W → Bytes → Bool
  sign : {S : Type} → W → Bytes → Bytes → TransactionView →
    TransactionDependencyProvider S → S → Except WalletError Bytes × S
  verify : W → Bytes → Bytes → Bytes → Except WalletError Bool

/-- Call-site semantics of `wallet.match_id(id)` in Rust: the wallet is
borrowed by shared reference, so the caller's wallet value flows through the
call unchanged. -/
def Wallet.callMatchId {W : Type} (WI : Wallet W) (w : W) (id : Bytes) :
    Bool × W :=
  (WI.match_id w id, w)

/-- Call-site semantics of `wallet.sign(id, message, tx, provider)` in Rust:
the wallet is borrowed by shared reference (so the caller's wallet value flows
through unchanged) while the provider state is borrowed mutably and may
change. -/
def Wallet.callSign {W S : Type} (WI : Wallet W)
    (P : TransactionDependencyProvider S) (w : W) (id message : Bytes)
    (tx : TransactionView) (s : S) : Except WalletError Bytes × W × S :=
  ((WI.sign w id message tx P s).1, w, (WI.sign w id message tx P s).2)

/-- Call-site semantics of `wallet.verify(id, message, signature)` in Rust:
the wallet is borrowed by shared reference, so the caller's wallet value flows
through the call unchanged. -/
def Wallet.callVerify {W : Type} (WI : Wallet W) (w : W)
    (id message signature : Bytes) : Except WalletError Bool × W :=
  (WI.verify w id message signature, w)

/-- Whether two dependency errors have the same kind (both `NotFound`, or both
`Other`). -/
def TxDepProviderError.sameKind : TxDepProviderError → TxDepProviderError → Bool
  | .NotFound, .NotFound => true
  | .Other _, .Other _ => true
  | _, _ => false

/-- Two lookup results agree when they are both errors of the same kind or
both successes with equal payloads. -/
def resultsAgree {R : Type} (r1 r2 : Except TxDepProviderError R) : Prop :=
  match r1, r2 with
  | .error e1, .error e2 => e1.sameKind e2 = true
  | .ok v1, .ok v2 => v1 = v2
  | _, _ => False

/-- A lookup operation is idempotent when invoking it twice with the same key
(the second call running in the state the first call left behind) yields
agreeing results. -/
def lookupIdempotent {S K R : Type}
    (get : S → K → Except TxDepProviderError R × S) : Prop :=
  ∀ (s : S) (k : K), resultsAgree (get s k).1 (get (get s k).2 k).1

/-- The idempotence contract of §3 of the spec, over all four lookups of a
provider. -/
def IdempotentProvider {S : Type} (P : TransactionDependencyProvider S) : Prop :=
  lookupIdempotent P.get_tx ∧ lookupIdempotent P.get_output ∧
    lookupIdempotent P.get_output_data ∧ lookupIdempotent P.get_header

/-- Modelled from the spec: no concrete `Wallet` implementation exists under
`src/` (the source's module comment says the traits are "only implemented ...
in upper level code"). This identity follows the scenario of §8 of the spec:
it owns exactly the identifier `0xAA01`; `sign` checks `match_id` first and,
on a match, deterministically produces a non-empty signature without issuing
any dependency lookup; `verify` recomputes the signature, treats an empty
signature as structurally invalid for the scheme (returning an error), and
otherwise returns whether the signature is correct. -/
def specOwnedId : Bytes := [0xAA, 0x01]

/-- Modelled from the spec: the deterministic signature the spec-modelled
identity produces over an identifier and a message; always non-empty. -/
def specSignature (id message : Bytes) : Bytes :=
  id ++ message ++ [1]

/-- Modelled from the spec: the spec-modelled signing identity (identity X of
§8 of the spec) packaged as a `Wallet` instance. -/
def SpecWallet : Wallet Unit where
  match_id := fun _ id => id == specOwnedId
  sign := fun _ id message _tx _P s =>
    if id == specOwnedId then (Except.ok (specSignature id message), s)
    else (Except.error WalletError.IdNotFound, s)
  verify := fun _ id message signature =>
    if signature.isEmpty then
      Except.error (WalletError.InvalidMessage "empty signature")
    else Except.ok (signature == specSignature id message)

/-- C1: for every input, each of the four lookup operations of
`EmptyTxDepProvider` (`get_tx`, `get_output`, `get_output_data`, `get_header`)
returns `TxDepProviderError.NotFound` (so in particular never a success
value). -/
theorem emptyTxDepProvider_all_lookups_notFound
    (s : EmptyTxDepProvider) (txh bh : H256) (op opd : OutPoint) :
    EmptyTxDepProvider.impl.get_tx s txh =
      (Except.error TxDepProviderError.NotFound, s) ∧
    EmptyTxDepProvider.impl.get_output s op =
      (Except.error TxDepProviderError.NotFound, s) ∧
    EmptyTxDepProvider.impl.get_output_data s opd =
      (Except.error TxDepProviderError.NotFound, s) ∧
    EmptyTxDepProvider.impl.get_header s bh =
      (Except.error TxDepProviderError.NotFound, s) :=
  ⟨rfl, rfl, rfl, rfl⟩

/-- C5: every lookup of `EmptyTxDepProvider` leaves the provider's state
unchanged: the state component of each result equals the state passed in. -/
theorem emptyTxDepProvider_no_side_effects
    (s : EmptyTxDepProvider) (txh bh : H256) (op opd : OutPoint) :
    (EmptyTxDepProvider.impl.get_tx s txh).2 = s ∧
    (EmptyTxDepProvider.impl.get_output s op).2 = s ∧
    (EmptyTxDepProvider.impl.get_output_data s opd).2 = s ∧
    (EmptyTxDepProvider.impl.get_header s bh).2 = s :=
  ⟨rfl, rfl, rfl, rfl⟩

/-- C3: wrapping a dependency error into a `WalletError` loses no information:
the derived conversion yields the `TxDep` variant carrying the error itself,
and the caller recovers the original error (hence its `NotFound` kind) by
matching on that variant. -/
theorem walletError_txDep_wrap_lossless (e : TxDepProviderError) :
    WalletError.fromTxDepProviderError e = WalletError.TxDep e ∧
    (WalletError.fromTxDepProviderError e).txDepSource = some e :=
  ⟨rfl, rfl⟩

/-- C8: the two error taxonomies have exactly the enumerated shapes: every
`WalletError` is `IdNotFound`, `InvalidMessage` with a reason string, `TxDep`
wrapping a `TxDepProviderError`, or `Other` with an opaque error; every
`TxDepProviderError` is `NotFound` or `Other` with an opaque error. -/
theorem error_taxonomies_exhaustive :
    (∀ e : WalletError, e = WalletError.IdNotFound ∨
      (∃ r, e = WalletError.InvalidMessage r) ∨
      (∃ d, e = WalletError.TxDep d) ∨
      (∃ o, e = WalletError.Other o)) ∧
    (∀ e : TxDepProviderError, e = TxDepProviderError.NotFound ∨
      ∃ o, e = TxDepProviderError.Other o) := by
  constructor
  · intro e
    cases e with
    | IdNotFound => exact Or.inl rfl
    | InvalidMessage r => exact Or.inr (Or.inl ⟨r, rfl⟩)
    | TxDep d => exact Or.inr (Or.inr (Or.inl ⟨d, rfl⟩))
    | Other o => exact Or.inr (Or.inr (Or.inr ⟨o, rfl⟩))
  · intro e
    cases e with
    | NotFound => exact Or.inl rfl
    | Other o => exact Or.inr ⟨o, rfl⟩

/-- C6: `EmptyTxDepProvider` satisfies the idempotence contract, and moreover
two consecutive calls of the same lookup with the same key return identical
results. -/
theorem emptyTxDepProvider_idempotent :
    IdempotentProvider EmptyTxDepProvider.impl ∧
    ∀ (s : EmptyTxDepProvider) (txh bh : H256) (op : OutPoint),
      EmptyTxDepProvider.impl.get_tx (EmptyTxDepProvider.impl.get_tx s txh).2 txh =
        EmptyTxDepProvider.impl.get_tx s txh ∧
      EmptyTxDepProvider.impl.get_output
          (EmptyTxDepProvider.impl.get_output s op).2 op =
        EmptyTxDepProvider.impl.get_output s op ∧
      EmptyTxDepProvider.impl.get_output_data
          (EmptyTxDepProvider.impl.get_output_data s op).2 op =
        EmptyTxDepProvider.impl.get_output_data s op ∧
      EmptyTxDepProvider.impl.get_header
          (EmptyTxDepProvider.impl.get_header s bh).2 bh =
        EmptyTxDepProvider.impl.get_header s bh := by
  refine ⟨⟨fun s k => rfl, fun s k => rfl, fun s k => rfl, fun s k => rfl⟩, ?_⟩
  intro s txh bh op
  exact ⟨rfl, rfl, rfl, rfl⟩

/-- C7: `match_id` is deterministic and does not mutate the wallet: for any
`Wallet` implementation, identical identifier bytes yield identical results,
and the caller's wallet value after the call equals the one before. -/
theorem wallet_match_id_pure {W : Type} (WI : Wallet W) (w : W)
    (id1 id2 : Bytes) (h : id1 = id2) :
    WI.match_id w id1 = WI.match_id w id2 ∧
    (WI.callMatchId w id1).2 = w := by
  subst h
  exact ⟨rfl, rfl⟩

/-- Witness for C7 at the spec-modelled wallet and a concrete identifier. -/
theorem wallet_match_id_pure_witness :
    ([0xAA, 0x01] : Bytes) = [0xAA, 0x01] ∧
    (SpecWallet.match_id () [0xAA, 0x01] = SpecWallet.match_id () [0xAA, 0x01] ∧
      (SpecWallet.callMatchId () [0xAA, 0x01]).2 = ()) :=
  ⟨rfl, wallet_match_id_pure SpecWallet () [0xAA, 0x01] [0xAA, 0x01] rfl⟩

/-- C10: no `Wallet` operation mutates the wallet: at every call site, the
caller's wallet value after `match_id`, `sign` or `verify` equals the one
before; only the provider state threaded through `sign` may change. -/
theorem wallet_methods_never_mutate_wallet {W S : Type} (WI : Wallet W)
    (P : TransactionDependencyProvider S) (w : W) (id message signature : Bytes)
    (tx : TransactionView) (s : S) :
    (WI.callMatchId w id).2 = w ∧
    (WI.callSign P w id message tx s).2.1 = w ∧
    (WI.callVerify w id message signature).2 = w :=
  ⟨rfl, rfl, rfl⟩

/-- C2: on the spec-modelled wallet, for every identifier accepted by
`match_id` and every message, `sign` succeeds and `verify` accepts the
produced signature. -/
theorem specWallet_sign_verify_roundtrip {S : Type}
    (P : TransactionDependencyProvider S) (s : S) (id message : Bytes)
    (tx : TransactionView) (h : SpecWallet.match_id () id = true) :
    ∃ signature s2,
      SpecWallet.sign () id message tx P s = (Except.ok signature, s2) ∧
      SpecWallet.verify () id message signature = Except.ok true := by
  have hid : id = specOwnedId := by simpa [SpecWallet] using h
  subst hid
  refine ⟨specSignature specOwnedId message, s, ?_, ?_⟩
  · simp [SpecWallet]
  · simp [SpecWallet, specSignature]

/-- Witness for C2 at identifier `0xAA01`, message `[1, 2, 3]` and the empty
dependency provider. -/
theorem specWallet_sign_verify_roundtrip_witness :
    SpecWallet.match_id () [0xAA, 0x01] = true ∧
    ∃ signature s2,
      SpecWallet.sign () [0xAA, 0x01] [1, 2, 3] (TransactionView.mk [])
        EmptyTxDepProvider.impl EmptyTxDepProvider.mk = (Except.ok signature, s2) ∧
      SpecWallet.verify () [0xAA, 0x01] [1, 2, 3] signature = Except.ok true :=
  ⟨by decide, specWallet_sign_verify_roundtrip EmptyTxDepProvider.impl
    EmptyTxDepProvider.mk [0xAA, 0x01] [1, 2, 3] (TransactionView.mk []) (by decide)⟩

/-- C4: on the spec-modelled wallet, for every identifier rejected by
`match_id`, `sign` returns `WalletError.IdNotFound` and leaves the state of
the dependency provider — arbitrary here, so in particular any
lookup-counting provider — unchanged: zero lookups are issued. -/
theorem specWallet_sign_unmatched_id {S : Type}
    (P : TransactionDependencyProvider S) (s : S) (id message : Bytes)
    (tx : TransactionView) (h : SpecWallet.match_id () id = false) :
    SpecWallet.sign () id message tx P s =
      (Except.error WalletError.IdNotFound, s) := by
  have hid : id ≠ specOwnedId := by simpa [SpecWallet] using h
  simp [SpecWallet, hid]

/-- Witness for C4 at the unmatched identifier `0xBB02`. -/
theorem specWallet_sign_unmatched_id_witness :
    SpecWallet.match_id () [0xBB, 0x02] = false ∧
    SpecWallet.sign () [0xBB, 0x02] [1, 2, 3] (TransactionView.mk [])
      EmptyTxDepProvider.impl EmptyTxDepProvider.mk =
      (Except.error WalletError.IdNotFound, EmptyTxDepProvider.mk) :=
  ⟨by decide, specWallet_sign_unmatched_id EmptyTxDepProvider.impl
    EmptyTxDepProvider.mk [0xBB, 0x02] [1, 2, 3] (TransactionView.mk []) (by decide)⟩

/-- C9: on the spec-modelled wallet, `verify` returns a boolean — never an
error — whenever the signature is structurally well-formed (non-empty);
returns `Ok false` for a well-formed but incorrect signature; and returns an
error exactly when the signature is structurally invalid for the scheme. -/
theorem specWallet_verify_ok_false_on_incorrect (id message signature : Bytes) :
    (signature ≠ [] →
      ∃ b, SpecWallet.verify () id message signature = Except.ok b) ∧
    (signature ≠ [] → signature ≠ specSignature id message →
      SpecWallet.verify () id message signature = Except.ok false) ∧
    (signature = [] →
      SpecWallet.verify () id message signature =
        Except.error (WalletError.InvalidMessage "empty signature")) := by
  refine ⟨?_, ?_, ?_⟩
  · intro hne
    exact ⟨signature == specSignature id message, by simp [SpecWallet, hne]⟩
  · intro hne hwrong
    simp [SpecWallet, hne, hwrong]
  · intro he
    subst he
    simp [SpecWallet]

/-- Witness for C9: the well-formed but incorrect signature `[9]` makes
`verify` return `Ok false`. -/
theorem specWallet_verify_ok_false_on_incorrect_witness :
    ([9] : Bytes) ≠ [] ∧ ([9] : Bytes) ≠ specSignature [0xAA, 0x01] [1, 2, 3] ∧
    SpecWallet.verify () [0xAA, 0x01] [1, 2, 3] [9] = Except.ok false :=
  ⟨by decide, by decide,
    (specWallet_verify_ok_false_on_incorrect [0xAA, 0x01] [1, 2, 3] [9]).2.1
      (by decide) (by decide)⟩

end CkbSdk
